import Mathlib

/-!
Shallow embedding of the `webtoon-scraper` repository's concurrent
fetch-and-aggregate pipeline, covering:

* `project_core/src/lib.rs` — `ResponseFactory::get`, the resilient fetcher
  with exponential-backoff retry;
* `webtoons/src/story/chapter_list.rs` — the chapter-list harvester
  (`parse`, `list`) building the id→date publish map;
* `webtoons/src/story/chapter.rs` — the detail crawler (`parse`, `chapter`)
  emitting one `Chapter` record per successfully fetched, non-skipped
  chapter id.

Modelling conventions:

* HTTP traffic and HTML field extraction are external collaborators
  (spec §1, §6): they are supplied as oracle functions in an
  environment record, so a theorem quantifies over every possible network
  and page content.  Machine integers (`u16`, `u32`) are modelled as `Nat`;
  none of the verified claims exercises overflow.
* Rust panics (`unwrap`, `panic!`, `expect`) are modelled by the
  `Outcome.panicked` constructor; a panic inside a rayon worker propagates
  and aborts the enclosing `parse` call, which the crawler-level results
  reflect.
* Side effects that the claims are about — issuing a GET, sleeping,
  logging an error — are recorded in an explicit event trace returned
  alongside each result.
* rayon's indexed `collect` preserves the input order of the parallel
  iterator regardless of the order in which workers finish, so the
  parallel maps are embedded as order-preserving sequential maps; results
  are therefore completion-order independent by construction.
-/

namespace WebtoonScraper

/-- An observable side effect of the pipeline: an HTTP GET issued for a
URL, a sleep in milliseconds (rate limiter), a sleep in seconds
(retry backoff), or an error logged via `tracing::error!`. -/
inductive Event where
  | get (url : String)
  | sleepMs (ms : Nat)
  | sleepSec (s : Nat)
  | logError (msg : String)
deriving Repr, DecidableEq

/-- Result of a Rust computation that can panic: either a normal value or
a propagated panic carrying its message. -/
inductive Outcome (α : Type) where
  | ok (a : α)
  | panicked (msg : String)
deriving Repr, DecidableEq

/-- An HTTP response as the code observes it: a status code and the result
of `response.text()` (which itself can fail). -/
structure Response where
  status : Nat
  text : Except String String

namespace ProjectCore

/-- Retry loop body of `ResponseFactory::get`
(`project_core/src/lib.rs:14-27`).  `net n` is the outcome of the `n`-th
`reqwest::get(url)` attempt (`none` = transport failure).  Mirrors the
source loop state: `retries` starts at 5, `wait` starts at 1 and doubles
after each sleep. -/
def getLoop (net : Nat → Option Response) (url : String) :
    Nat → Nat → Nat → Outcome Response × List Event
  | retries, wait, idx =>
    match net idx with
    | some r => (.ok r, [.get url])
    | none =>
      match retries with
      | rs + 1 =>
        let rest := getLoop net url rs (wait * 2) (idx + 1)
        (rest.1, .get url :: .sleepSec wait :: rest.2)
      | 0 => (.panicked ("Cannot connect. Check URL: " ++ url), [.get url])

/-- Model of `ResponseFactory::get` (`project_core/src/lib.rs:10-31`): up to 5
retries after the initial attempt, sleeping `wait` seconds between
attempts with `wait` doubling from 1; panics once the retry budget is
exhausted. -/
def ResponseFactory.get (net : Nat → Option Response) (url : String) :
    Outcome Response × List Event :=
  getLoop net url 5 1 0

end ProjectCore

/-- One `(chapter, likes, date)` entry extracted from a catalog page
(`webtoons/src/story/chapter_list/models.rs`, fields as constructed at
`chapter_list.rs:79-83`). -/
structure ChapterList where
  chapter : Nat
  likes : Nat
  date : String
deriving Repr, DecidableEq

namespace ChapterListHarvester

/-- External collaborators of the harvester (spec §1, §6): the blocking
HTTP client `BlockingReferClient::get`, the per-page random draw
`thread_rng().gen_range(1..=3)` (indexed by page so distinct pages may
draw differently), and the HTML list extraction `chapter(&html)` whose
selector logic over parsed HTML is out of the embedded core. -/
structure ListEnv where
  fetch : String → Except String Response
  rand : Nat → Nat
  extract : String → Except String (List ChapterList)

/-- URL of one catalog page: `format!("{url}&page={page}")`
(`chapter_list.rs:31`). -/
def pageUrl (url : String) (page : Nat) : String :=
  url ++ "&page=" ++ toString page

/-- Model of `fn list(url)` (`chapter_list.rs:53-66`): issue the GET,
then draw `r ∈ 1..=3` and sleep `500*r` milliseconds, then read the body
text and run the list extraction.  `r` is the value drawn for this call.
Note the source sleeps after the fetch, not before it. -/
def list (env : ListEnv) (r : Nat) (url : String) :
    Except String (List ChapterList) × List Event :=
  match env.fetch url with
  | .error e => (.error e, [.get url])
  | .ok response =>
    let evs : List Event := [.get url, .sleepMs (500 * r)]
    match response.text with
    | .error _ => (.error ("Failed to text body result info at url: " ++ url), evs)
    | .ok html =>
      match env.extract html with
      | .error e => (.error e, evs)
      | .ok lst => (.ok lst, evs)

/-- Per-page worker body of `parse` (`chapter_list.rs:30-40`) mapped over
the page list: on a page whose `list` call fails, the source logs
`"Failed to parse Page {page}"` and then calls `.unwrap()` on the `Err`,
which panics and aborts the whole harvest.  rayon's ordered `collect` +
`flatten` makes the success case an in-page-order concatenation. -/
def harvestPages (env : ListEnv) (url : String) :
    List Nat → Outcome (List ChapterList) × List Event
  | [] => (.ok [], [])
  | page :: rest =>
    let step := list env (env.rand page) (pageUrl url page)
    match step.1 with
    | .error e =>
      (.panicked e, step.2 ++ [.logError ("Failed to parse Page " ++ toString page)])
    | .ok entries =>
      match harvestPages env url rest with
      | (.panicked m, evs) => (.panicked m, step.2 ++ evs)
      | (.ok entriesRest, evs) => (.ok (entries ++ entriesRest), step.2 ++ evs)

/-- Model of `HashMap::insert` on an insertion-ordered association list:
overwrite in place when the key is present, append otherwise. -/
def hmInsert (m : List (Nat × String)) (k : Nat) (v : String) :
    List (Nat × String) :=
  if m.any (fun p => p.1 == k) then
    m.map (fun p => if p.1 == k then (k, v) else p)
  else m ++ [(k, v)]

/-- Model of `HashMap::get` on the association-list map. -/
def hmFind (m : List (Nat × String)) (k : Nat) : Option String :=
  (m.find? (fun p => p.1 == k)).map (fun p => p.2)

/-- Model of harvester `parse(end, url)` (`chapter_list.rs:21-51`): map
the per-page worker over pages `1..=end`, flatten in page order, then
insert every `(chapter, date)` pair into one map, later insertions
overwriting earlier ones. -/
def parse (env : ListEnv) (endPage : Nat) (url : String) :
    Outcome (List (Nat × String)) × List Event :=
  match harvestPages env url (List.range' 1 endPage) with
  | (.panicked m, evs) => (.panicked m, evs)
  | (.ok lst, evs) =>
    (.ok (lst.foldl (fun m c => hmInsert m c.chapter c.date) []), evs)

end ChapterListHarvester

/-- A user comment (`webtoons/src/story/chapter/comments/models.rs`,
fields as constructed at `chapter.rs:85-95`). -/
structure UserComment where
  username : String
  replies : Nat
  upvotes : Nat
  downvotes : Nat
  contents : String
  profile_type : String
  auth_provider : String
  country : String
  post_date : String
deriving Repr, DecidableEq

/-- A finalized chapter record (`webtoons/src/story/chapter/models.rs`,
fields as constructed at `chapter.rs:104-115`).  The classifier-valued
fields `season`, `season_chapter`, `arc` come from caller-supplied pure
functions whose value type lives outside the embedded core (spec §3);
they are represented by `Nat`. -/
structure Chapter where
  number : Nat
  likes : Nat
  length : Nat
  comments : Nat
  replies : Nat
  season : Nat
  season_chapter : Nat
  arc : Nat
  user_comments : List UserComment
  published : Option String
deriving Repr, DecidableEq

namespace DetailCrawler

/-- External collaborators of the detail crawler: the blocking client
`BlockingReferClientFactory::get`, the field extractors
`likes::parse(id, chapter)`, `length::parse(&html)`,
`chapter_number(&html)`, `comments::parse(id, number)` (spec §6 Field
Extractor contract — their selector/HTTP internals live outside the
embedded core), the three caller-supplied classifiers, and the skip
predicate. -/
structure DetailEnv where
  fetch : String → Except String Response
  likesOf : Nat → Nat → Except String Nat
  lengthOf : String → Except String Nat
  numberOf : String → Except String Nat
  commentsOf : Nat → Nat → Except String (Nat × Nat × List UserComment)
  season : String → Nat → Nat
  seasonChapter : String → Nat → Nat
  arc : String → Nat → Nat
  skip : Nat → Bool

/-- Model of `fn chapter_url(id, chapter)` (`chapter.rs:143-145`). -/
def chapter_url (id chap : Nat) : String :=
  "https://www.webtoons.com/en/*/*/*/viewer?title_no=" ++ toString id ++
    "&episode_no=" ++ toString chap

/-- Body of `fn chapter(...)` (`chapter.rs:47-118`) after the GET for the
detail URL has been issued.  Order of operations, as in the source: the
GET's `.unwrap()` panics on transport failure, the chapter is dropped
silently (`None`) when the status is not OK or the skip predicate holds,
then the body is read (`.unwrap()`), then likes, length and chapter
number are extracted (each panics on failure); comment extraction
failure degrades to `(0, 0, [sentinel])` with a logged error; the record
is built with `number := chap` and `published := none` (the source's
`published: None` TODO at `chapter.rs:114`).  The event list holds the
events after the initial GET. -/
def chapterCore (env : DetailEnv) (id chap : Nat) (url : String) :
    Outcome (Option Chapter) × List Event :=
  match env.fetch url with
  | .error e => (.panicked e, [])
  | .ok response =>
    if response.status != 200 || env.skip chap then (.ok none, [])
    else
      match response.text with
      | .error e => (.panicked e, [])
      | .ok body =>
        match env.likesOf id chap with
        | .error _ => (.panicked ("failed to parse likes from " ++ url), [])
        | .ok likes =>
          match env.lengthOf body with
          | .error _ => (.panicked ("failed to parse length from " ++ url), [])
          | .ok length =>
            match env.numberOf body with
            | .error _ =>
              (.panicked ("failed to parse chapter number from " ++ url), [])
            | .ok number =>
              match env.commentsOf id number with
              | .ok (comments, replies, user_comments) =>
                (.ok (some
                  { number := chap, likes := likes, length := length
                    comments := comments, replies := replies
                    season := env.season body number
                    season_chapter := env.seasonChapter body number
                    arc := env.arc body number
                    user_comments := user_comments, published := none }),
                 [])
              | .error err =>
                (.ok (some
                  { number := chap, likes := likes, length := length
                    comments := 0, replies := 0
                    season := env.season body number
                    season_chapter := env.seasonChapter body number
                    arc := env.arc body number
                    user_comments := [{ username := "", replies := 0, upvotes := 0
                                        downvotes := 0, contents := "", profile_type := ""
                                        auth_provider := "", country := "", post_date := "" }]
                    published := none }),
                 [.logError ("Error: " ++ err ++ ", failed to parse comments from " ++ url)])

/-- Model of `fn chapter(...)` (`chapter.rs:47-118`), one worker's unit
of work: the GET for the chapter's detail URL is issued first
(`chapter.rs:57`), then `chapterCore` takes over. -/
def chapter (env : DetailEnv) (id chap : Nat) :
    Outcome (Option Chapter) × List Event :=
  let url := chapter_url id chap
  let core := chapterCore env id chap url
  (core.1, .get url :: core.2)

/-- Process-wide state: whether rayon's global thread pool has already
been initialised (`ThreadPoolBuilder::build_global` succeeds at most once
per process). -/
structure ProcState where
  poolBuilt : Bool
deriving Repr, DecidableEq

/-- Result of crawler `parse`: a normal `anyhow::Result` value (`Ok` list
or `Err` message) or a propagated worker panic. -/
inductive ParseResult where
  | ok (chapters : List Chapter)
  | error (msg : String)
  | panicked (msg : String)
deriving Repr, DecidableEq

/-- First worker panic among the per-chapter outcomes, if any (a panic in
any rayon worker propagates out of `collect`). -/
def firstPanic (outs : List (Outcome (Option Chapter))) : Option String :=
  outs.findSome? (fun o => match o with | .panicked m => some m | _ => none)

/-- The records of the workers that emitted one, in input order
(`filter_map` + ordered `collect`, `chapter.rs:38-42`). -/
def okChapters (outs : List (Outcome (Option Chapter))) : List Chapter :=
  outs.filterMap (fun o => match o with | .ok (some c) => some c | _ => none)

/-- Model of crawler `parse(start, end, id, ...)` (`chapter.rs:19-45`):
build the global thread pool (an error return if it was already built),
then map the worker over `start..=end` (empty when `start > end`, as for
Rust's `u16` range) and collect.  The event trace concatenates the
per-worker traces in input order; real inter-worker interleaving is
nondeterministic, and only order-insensitive facts about the whole trace
are stated in the theorems below. -/
def parse (env : DetailEnv) (st : ProcState) (start endC id : Nat) :
    (ParseResult × List Event) × ProcState :=
  if st.poolBuilt then ((.error "Couldn't create thread pool", []), st)
  else
    let outs := (List.range' start (endC + 1 - start)).map (fun c => chapter env id c)
    ((match firstPanic (outs.map Prod.fst) with
      | some m => ParseResult.panicked m
      | none => ParseResult.ok (okChapters (outs.map Prod.fst)),
      (outs.map Prod.snd).flatten),
     { poolBuilt := true })

end DetailCrawler

/-! Concrete environments used to instantiate the theorems below on
explicit inputs. -/

/-- A detail-crawler environment in which every fetch succeeds with
status OK, every extraction succeeds, and nothing is skipped. -/
def happyDetailEnv : DetailCrawler.DetailEnv :=
  { fetch := fun _ => .ok { status := 200, text := .ok "page" }
    likesOf := fun _ _ => .ok 7779
    lengthOf := fun _ => .ok 40
    numberOf := fun _ => .ok 24
    commentsOf := fun _ _ => .ok (3, 5, [])
    season := fun _ _ => 0
    seasonChapter := fun _ _ => 0
    arc := fun _ _ => 0
    skip := fun _ => false }

/-- Like `happyDetailEnv`, but every fetch returns HTTP status 404. -/
def notFoundDetailEnv : DetailCrawler.DetailEnv :=
  { happyDetailEnv with fetch := fun _ => .ok { status := 404, text := .ok "missing" } }

/-- Like `happyDetailEnv`, but the skip predicate holds exactly at
chapter id 7. -/
def skipDetailEnv : DetailCrawler.DetailEnv :=
  { happyDetailEnv with skip := fun c => c == 7 }

/-- Like `happyDetailEnv`, but comment extraction always fails. -/
def degradedDetailEnv : DetailCrawler.DetailEnv :=
  { happyDetailEnv with commentsOf := fun _ _ => .error "no comments payload" }

/-- Like `happyDetailEnv`, but length extraction always fails (a
malformed detail page), while every fetch still succeeds with status
OK and nothing is skipped. -/
def badLengthDetailEnv : DetailCrawler.DetailEnv :=
  { happyDetailEnv with lengthOf := fun _ => .error "no episode area" }

/-- A harvester environment whose pages all fetch fine but whose list
extraction always fails, with the random draw fixed at 2. -/
def failListEnv : ChapterListHarvester.ListEnv :=
  { fetch := fun _ => .ok { status := 200, text := .ok "badpage" }
    rand := fun _ => 2
    extract := fun _ => .error "No chapter number to parse" }

/-- A harvester environment whose single page extracts successfully,
with the random draw fixed at 2. -/
def okListEnv : ChapterListHarvester.ListEnv :=
  { fetch := fun _ => .ok { status := 200, text := .ok "goodpage" }
    rand := fun _ => 2
    extract := fun _ => .ok [{ chapter := 24, likes := 7779, date := "2022-11-20" }] }

/-- A harvester environment with two catalog pages whose extracted lists
share chapter id 24 with different dates. -/
def twoPageListEnv : ChapterListHarvester.ListEnv :=
  { fetch := fun u =>
      if u = "https://w.example/list?title_no=95&page=1" then
        .ok { status := 200, text := .ok "page1" }
      else
        .ok { status := 200, text := .ok "page2" }
    rand := fun _ => 1
    extract := fun b =>
      if b = "page1" then .ok [{ chapter := 24, likes := 100, date := "2022-11-13" }]
      else .ok [{ chapter := 24, likes := 200, date := "2022-11-20" }] }

/-! Helper lemmas about the detail-crawler worker and its aggregation. -/

namespace DetailCrawler

/-- Every record a worker emits carries the requested chapter id as its
`number` and has `published = none`. -/
theorem chapter_emitted_shape (env : DetailEnv) (id c : Nat) (r : Chapter)
    (h : (chapter env id c).1 = .ok (some r)) :
    r.number = c ∧ r.published = none := by
  simp only [chapter, chapterCore] at h
  cases hf : env.fetch (chapter_url id c) with
  | error e => simp only [hf] at h; cases h
  | ok resp =>
    simp only [hf] at h
    cases hcond : (resp.status != 200 || env.skip c) with
    | true => simp [hcond] at h
    | false =>
      simp only [hcond, Bool.false_eq_true, if_false] at h
      cases ht : resp.text with
      | error e => simp only [ht] at h; cases h
      | ok body =>
        simp only [ht] at h
        cases hl : env.likesOf id c with
        | error e => simp only [hl] at h; cases h
        | ok likes =>
          simp only [hl] at h
          cases hlen : env.lengthOf body with
          | error e => simp only [hlen] at h; cases h
          | ok len =>
            simp only [hlen] at h
            cases hn : env.numberOf body with
            | error e => simp only [hn] at h; cases h
            | ok n =>
              simp only [hn] at h
              cases hcom : env.commentsOf id n with
              | error err =>
                simp only [hcom] at h
                obtain ⟨rfl⟩ := h
                exact ⟨rfl, rfl⟩
              | ok tup =>
                obtain ⟨comments, replies, ucs⟩ := tup
                simp only [hcom] at h
                obtain ⟨rfl⟩ := h
                exact ⟨rfl, rfl⟩

/-- The first event of every worker is the GET for the chapter's detail
URL: the fetch is issued before the skip predicate is consulted. -/
theorem chapter_trace_head (env : DetailEnv) (id c : Nat) :
    (chapter env id c).2.head? = some (.get (chapter_url id c)) := rfl

/-- A skipped chapter id never yields a record: its worker either
returns `none` (fetch succeeded) or panics (fetch transport failure). -/
theorem chapter_skip_drops (env : DetailEnv) (id c : Nat)
    (hskip : env.skip c = true) :
    (chapter env id c).1 = .ok none ∨ ∃ m, (chapter env id c).1 = .panicked m := by
  simp only [chapter, chapterCore]
  cases hf : env.fetch (chapter_url id c) with
  | error e => exact Or.inr ⟨e, rfl⟩
  | ok resp => simp [hskip]

/-- A chapter whose fetch returns a non-OK status is dropped silently:
its worker returns `none`, with no panic. -/
theorem chapter_nonOK_drops (env : DetailEnv) (id c : Nat) (resp : Response)
    (hf : env.fetch (chapter_url id c) = .ok resp) (hstatus : resp.status ≠ 200) :
    (chapter env id c).1 = .ok none := by
  simp only [chapter, chapterCore, hf]
  simp [bne_iff_ne, hstatus]

/-- When the fetch succeeds with status OK, the chapter is not skipped,
and the required extractions (likes, length, chapter number) succeed,
the worker emits a record for the requested id — whether or not comment
extraction succeeds. -/
theorem chapter_ok_of (env : DetailEnv) (id c : Nat) (body : String)
    (hf : env.fetch (chapter_url id c) = .ok { status := 200, text := .ok body })
    (hskip : env.skip c = false)
    (hl : ∃ v, env.likesOf id c = .ok v)
    (hlen : ∃ v, env.lengthOf body = .ok v)
    (hn : ∃ v, env.numberOf body = .ok v) :
    ∃ r, (chapter env id c).1 = .ok (some r) ∧ r.number = c := by
  obtain ⟨likes, hl⟩ := hl
  obtain ⟨len, hlen⟩ := hlen
  obtain ⟨n, hn⟩ := hn
  simp only [chapter, chapterCore, hf, hskip, hl, hlen, hn]
  simp only [bne_self_eq_false, Bool.or_false, Bool.false_eq_true, if_false]
  cases hcom : env.commentsOf id n with
  | error err => exact ⟨_, rfl, rfl⟩
  | ok tup => obtain ⟨comments, replies, ucs⟩ := tup; exact ⟨_, rfl, rfl⟩

/-- When every worker in the requested list emits a record, no panic is
observed and the collected records correspond 1:1, in order, to the
requested chapter ids. -/
theorem crawl_allOk (env : DetailEnv) (id : Nat) :
    ∀ chaps : List Nat,
      (∀ c ∈ chaps, ∃ r, (chapter env id c).1 = .ok (some r) ∧ r.number = c) →
      firstPanic (chaps.map (fun c => (chapter env id c).1)) = none ∧
      (okChapters (chaps.map (fun c => (chapter env id c).1))).map Chapter.number = chaps
  | [], _ => ⟨rfl, rfl⟩
  | c :: rest, h => by
    obtain ⟨r, hr, hnum⟩ := h c (List.mem_cons_self c rest)
    obtain ⟨ih1, ih2⟩ :=
      crawl_allOk env id rest (fun x hx => h x (List.mem_cons_of_mem c hx))
    constructor
    · simp only [List.map_cons, firstPanic, List.findSome?_cons, hr]
      simpa [firstPanic] using ih1
    · simp only [List.map_cons, okChapters, List.filterMap_cons, hr]
      simp only [okChapters, List.filterMap_map] at ih2
      simp [ih2, hnum]

/-- Every record in a normally returned crawl output was emitted by the
worker for its own `number`. -/
theorem parse_ok_mem (env : DetailEnv) (st : ProcState) (s e id : Nat)
    (l : List Chapter) (h : (parse env st s e id).1.1 = .ok l)
    (r : Chapter) (hr : r ∈ l) :
    (chapter env id r.number).1 = .ok (some r) := by
  cases hpb : st.poolBuilt with
  | true => simp only [parse, hpb, if_true] at h; cases h
  | false =>
    simp only [parse, hpb, Bool.false_eq_true, if_false] at h
    cases hfp : firstPanic ((List.range' s (e + 1 - s)).map (fun c => chapter env id c)
        |>.map Prod.fst) with
    | some m => rw [hfp] at h; cases h
    | none =>
      rw [hfp] at h
      obtain ⟨rfl⟩ := h
      simp only [okChapters, List.map_map, List.mem_filterMap, List.mem_map] at hr
      obtain ⟨o, ⟨c, hc, hco⟩, ho⟩ := hr
      have ho' : o = .ok (some r) := by
        cases o with
        | ok oc =>
          cases oc with
          | none => simp at ho
          | some c' => simp at ho; simp [ho]
        | panicked m => simp at ho
      subst ho'
      have hco' : (chapter env id c).1 = .ok (some r) := hco
      have hshape := chapter_emitted_shape env id c r hco'
      rw [hshape.1]
      exact hco'

end DetailCrawler

/-! Claim theorems. -/

/-- C4: for a URL whose GET fails on every attempt, `ResponseFactory::get`
performs the initial attempt plus exactly 5 retries (6 GETs in total),
sleeping 1, 2, 4, 8, then 16 seconds between successive attempts, and
then panics — aborting the calling worker's unit of work instead of
returning normally. -/
theorem c4_retry_backoff (net : Nat → Option Response) (url : String)
    (h : ∀ n, net n = none) :
    ProjectCore.ResponseFactory.get net url =
      (.panicked ("Cannot connect. Check URL: " ++ url),
       [.get url, .sleepSec 1, .get url, .sleepSec 2, .get url, .sleepSec 4,
        .get url, .sleepSec 8, .get url, .sleepSec 16, .get url]) := by
  simp [ProjectCore.ResponseFactory.get, ProjectCore.getLoop, h]

/-- Witness for C4 at a concrete always-failing network. -/
theorem c4_witness :
    ProjectCore.ResponseFactory.get (fun _ => none) "http://u" =
      (.panicked "Cannot connect. Check URL: http://u",
       [.get "http://u", .sleepSec 1, .get "http://u", .sleepSec 2, .get "http://u",
        .sleepSec 4, .get "http://u", .sleepSec 8, .get "http://u", .sleepSec 16,
        .get "http://u"]) :=
  c4_retry_backoff (fun _ => none) "http://u" (fun _ => rfl)

/-- C3 (code bug): the detail crawler sets `published` to `None`
unconditionally (`chapter.rs:114`, marked TODO in the source) — it never
reads the publish map, so an emitted record's `published` is `none` even
for ids present in the map, contradicting the backfill the spec
describes. -/
theorem c3_published_always_none (env : DetailCrawler.DetailEnv) (id c : Nat)
    (r : Chapter) (h : (DetailCrawler.chapter env id c).1 = .ok (some r)) :
    r.published = none :=
  (DetailCrawler.chapter_emitted_shape env id c r h).2

/-- Witness for C3: the record emitted for chapter 1 in the all-success
environment has `published = none`. -/
theorem c3_witness :
    ({ number := 1, likes := 7779, length := 40, comments := 3, replies := 5,
       season := 0, season_chapter := 0, arc := 0, user_comments := [],
       published := none } : Chapter).published = none :=
  c3_published_always_none happyDetailEnv 95 1 _ rfl

/-- C5: when the fetch succeeds with status OK, the chapter is not
skipped, and likes/length/chapter-number extraction succeed but comment
extraction fails, a record is still emitted with `comments = 0`,
`replies = 0`, and `user_comments` equal to the one-element sentinel
placeholder whose string fields are all empty and counters all zero. -/
theorem c5_comment_degradation (env : DetailCrawler.DetailEnv) (id c : Nat)
    (body : String) (likes len n : Nat) (err : String)
    (hf : env.fetch (DetailCrawler.chapter_url id c) =
      .ok { status := 200, text := .ok body })
    (hskip : env.skip c = false)
    (hl : env.likesOf id c = .ok likes)
    (hlen : env.lengthOf body = .ok len)
    (hn : env.numberOf body = .ok n)
    (hcom : env.commentsOf id n = .error err) :
    (DetailCrawler.chapter env id c).1 = .ok (some
      { number := c, likes := likes, length := len, comments := 0, replies := 0
        season := env.season body n, season_chapter := env.seasonChapter body n
        arc := env.arc body n
        user_comments := [{ username := "", replies := 0, upvotes := 0, downvotes := 0
                            contents := "", profile_type := "", auth_provider := ""
                            country := "", post_date := "" }]
        published := none }) := by
  simp only [DetailCrawler.chapter, DetailCrawler.chapterCore, hf, hskip, hl, hlen, hn, hcom]
  simp

/-- Witness for C5 in the comment-failure environment. -/
theorem c5_witness :
    (DetailCrawler.chapter degradedDetailEnv 95 2).1 = .ok (some
      { number := 2, likes := 7779, length := 40, comments := 0, replies := 0
        season := 0, season_chapter := 0, arc := 0
        user_comments := [{ username := "", replies := 0, upvotes := 0, downvotes := 0
                            contents := "", profile_type := "", auth_provider := ""
                            country := "", post_date := "" }]
        published := none }) :=
  c5_comment_degradation degradedDetailEnv 95 2 "page" 7779 40 24 "no comments payload"
    rfl rfl rfl rfl rfl rfl

/-- C6: a chapter id whose fetch completes transport-wise with a
non-success status is dropped silently — its worker returns `none`
rather than panicking, and no record with that id appears in the
crawler's output. -/
theorem c6_nonsuccess_dropped (env : DetailCrawler.DetailEnv)
    (st : DetailCrawler.ProcState) (s e id c : Nat) (resp : Response)
    (hf : env.fetch (DetailCrawler.chapter_url id c) = .ok resp)
    (hstatus : resp.status ≠ 200) :
    (DetailCrawler.chapter env id c).1 = .ok none ∧
    ∀ l, (DetailCrawler.parse env st s e id).1.1 = .ok l → ∀ r ∈ l, r.number ≠ c := by
  refine ⟨DetailCrawler.chapter_nonOK_drops env id c resp hf hstatus, ?_⟩
  intro l hl r hr hrc
  have hmem := DetailCrawler.parse_ok_mem env st s e id l hl r hr
  rw [hrc, DetailCrawler.chapter_nonOK_drops env id c resp hf hstatus] at hmem
  simp at hmem

/-- Witness for C6: with every fetch answering 404, chapter 7 yields no
record and causes no panic. -/
theorem c6_witness :
    (DetailCrawler.chapter notFoundDetailEnv 95 7).1 = .ok none ∧
    ∀ l, (DetailCrawler.parse notFoundDetailEnv { poolBuilt := false } 1 3 95).1.1 = .ok l →
      ∀ r ∈ l, r.number ≠ 7 :=
  c6_nonsuccess_dropped notFoundDetailEnv { poolBuilt := false } 1 3 95 7
    { status := 404, text := .ok "missing" } rfl (by decide)

/-- C7 counterexample: the claim says a skipped id is excluded from
fetching entirely, but the worker issues the HTTP GET for the detail
page first and only then consults the skip predicate
(`chapter.rs:57-61`): with id 7 skipped, the GET for chapter 7's URL
still appears in the worker's event trace. -/
theorem c7_counterexample :
    skipDetailEnv.skip 7 = true ∧
    Event.get (DetailCrawler.chapter_url 95 7) ∈
      (DetailCrawler.chapter skipDetailEnv 95 7).2 :=
  ⟨rfl, List.mem_cons_self _ _⟩

/-- C7 amended: for a chapter id with `skip id = true`, the detail-page
GET is still issued (it is the worker's first event), but no record with
that id appears in the crawler's output. -/
theorem c7_skip_no_record_amended (env : DetailCrawler.DetailEnv)
    (st : DetailCrawler.ProcState) (s e id c : Nat)
    (hskip : env.skip c = true) :
    (DetailCrawler.chapter env id c).2.head? =
      some (.get (DetailCrawler.chapter_url id c)) ∧
    ∀ l, (DetailCrawler.parse env st s e id).1.1 = .ok l → ∀ r ∈ l, r.number ≠ c := by
  refine ⟨DetailCrawler.chapter_trace_head env id c, ?_⟩
  intro l hl r hr hrc
  have hmem := DetailCrawler.parse_ok_mem env st s e id l hl r hr
  rw [hrc] at hmem
  rcases DetailCrawler.chapter_skip_drops env id c hskip with h0 | ⟨m, hm⟩
  · rw [h0] at hmem; simp at hmem
  · rw [hm] at hmem; simp at hmem

/-- Witness for C7 with id 7 skipped. -/
theorem c7_witness :
    (DetailCrawler.chapter skipDetailEnv 95 7).2.head? =
      some (.get (DetailCrawler.chapter_url 95 7)) ∧
    ∀ l, (DetailCrawler.parse skipDetailEnv { poolBuilt := false } 1 9 95).1.1 = .ok l →
      ∀ r ∈ l, r.number ≠ 7 :=
  c7_skip_no_record_amended skipDetailEnv { poolBuilt := false } 1 9 95 7 rfl

/-- C10: crawler `parse` calls `ThreadPoolBuilder::build_global` on
every invocation and the global rayon pool can be initialised only once
per process, so after one call (which marks the pool built), any second
call in the same process returns the error "Couldn't create thread
pool" with an empty event trace — no chapter is fetched. -/
theorem c10_second_parse_fails (env env' : DetailCrawler.DetailEnv)
    (st : DetailCrawler.ProcState) (s e id s' e' id' : Nat)
    (hst : st.poolBuilt = false) :
    (DetailCrawler.parse env st s e id).2.poolBuilt = true ∧
    (DetailCrawler.parse env' (DetailCrawler.parse env st s e id).2 s' e' id').1 =
      (.error "Couldn't create thread pool", []) := by
  constructor
  · simp [DetailCrawler.parse, hst]
  · simp [DetailCrawler.parse, hst]

/-- Witness for C10: two concrete successive calls. -/
theorem c10_witness :
    (DetailCrawler.parse happyDetailEnv { poolBuilt := false } 1 3 95).2.poolBuilt = true ∧
    (DetailCrawler.parse happyDetailEnv
      (DetailCrawler.parse happyDetailEnv { poolBuilt := false } 1 3 95).2 4 6 95).1 =
      (.error "Couldn't create thread pool", []) :=
  c10_second_parse_fails happyDetailEnv happyDetailEnv { poolBuilt := false } 1 3 95 4 6 95 rfl

/-- C1 counterexample: the claim's hypotheses (no skips, no fetch
failures, all responses OK) do not rule out a required-field extraction
failure, and then `parse` does not return a sequence at all: with every
fetch succeeding with status 200 and nothing skipped but length
extraction failing, the crawl of the range `[1, 1]` panics instead of
returning `1 - 1 + 1 = 1` record. -/
theorem c1_counterexample :
    badLengthDetailEnv.skip 1 = false ∧
    badLengthDetailEnv.fetch (DetailCrawler.chapter_url 95 1) =
      .ok { status := 200, text := .ok "page" } ∧
    (DetailCrawler.parse badLengthDetailEnv { poolBuilt := false } 1 1 95).1.1 =
      .panicked ("failed to parse length from " ++ DetailCrawler.chapter_url 95 1) :=
  ⟨rfl, rfl, rfl⟩

/-- C1 amended: for a fresh process and an inclusive range `[s, e]` in
which the skip predicate is false for every id, every fetch succeeds
with status OK and a readable body, and the required field extractions
(likes, length, chapter number) succeed for every id, `parse` returns a
sequence of exactly `e - s + 1` records, strictly ascending by `number`,
with every `number` in `[s, e]`.  The embedding is deterministic and
completion-order free, mirroring rayon's order-preserving `collect`. -/
theorem c1_range_output_amended (env : DetailCrawler.DetailEnv)
    (st : DetailCrawler.ProcState) (s e id : Nat)
    (hst : st.poolBuilt = false) (hse : s ≤ e)
    (hskip : ∀ c, s ≤ c → c ≤ e → env.skip c = false)
    (hok : ∀ c, s ≤ c → c ≤ e → ∃ body,
      env.fetch (DetailCrawler.chapter_url id c) =
        .ok { status := 200, text := .ok body } ∧
      (∃ v, env.likesOf id c = .ok v) ∧ (∃ v, env.lengthOf body = .ok v) ∧
      (∃ v, env.numberOf body = .ok v)) :
    ∃ l, (DetailCrawler.parse env st s e id).1.1 = .ok l ∧
      l.length = e - s + 1 ∧
      l.Pairwise (fun a b => a.number < b.number) ∧
      ∀ r ∈ l, s ≤ r.number ∧ r.number ≤ e := by
  have hall : ∀ c ∈ List.range' s (e + 1 - s),
      ∃ r, (DetailCrawler.chapter env id c).1 = .ok (some r) ∧ r.number = c := by
    intro c hc
    rw [List.mem_range'_1] at hc
    have hle : s ≤ c := hc.1
    have hlt : c ≤ e := by omega
    obtain ⟨body, hf, hlk, hln, hnm⟩ := hok c hle hlt
    exact DetailCrawler.chapter_ok_of env id c body hf (hskip c hle hlt) hlk hln hnm
  obtain ⟨h1, h2⟩ := DetailCrawler.crawl_allOk env id (List.range' s (e + 1 - s)) hall
  have hparse : (DetailCrawler.parse env st s e id).1.1 =
      .ok (DetailCrawler.okChapters
        ((List.range' s (e + 1 - s)).map (fun c => (DetailCrawler.chapter env id c).1))) := by
    simp only [DetailCrawler.parse, hst, Bool.false_eq_true, if_false, List.map_map]
    have h1' : DetailCrawler.firstPanic
        ((List.range' s (e + 1 - s)).map (Prod.fst ∘ fun c => DetailCrawler.chapter env id c)) =
        none := by
      simpa [Function.comp] using h1
    rw [h1']
    rfl
  refine ⟨_, hparse, ?_, ?_, ?_⟩
  · have := congrArg List.length h2
    simp only [List.length_map] at this
    rw [this]
    simp
    omega
  · have hpw : (DetailCrawler.okChapters
        ((List.range' s (e + 1 - s)).map (fun c => (DetailCrawler.chapter env id c).1))).map
          Chapter.number |>.Pairwise (· < ·) := by
      rw [h2]; exact List.pairwise_lt_range' s (e + 1 - s)
    exact (List.pairwise_map.mp hpw)
  · intro r hr
    have : r.number ∈ (DetailCrawler.okChapters
        ((List.range' s (e + 1 - s)).map (fun c => (DetailCrawler.chapter env id c).1))).map
          Chapter.number := List.mem_map_of_mem Chapter.number hr
    rw [h2, List.mem_range'_1] at this
    omega

/-- Witness for C1 (amended) on the all-success environment over the
range `[1, 3]`. -/
theorem c1_witness :
    ∃ l, (DetailCrawler.parse happyDetailEnv { poolBuilt := false } 1 3 95).1.1 = .ok l ∧
      l.length = 3 - 1 + 1 ∧
      l.Pairwise (fun a b => a.number < b.number) ∧
      ∀ r ∈ l, 1 ≤ r.number ∧ r.number ≤ 3 :=
  c1_range_output_amended happyDetailEnv { poolBuilt := false } 1 3 95 rfl (by omega)
    (fun _ _ _ => rfl)
    (fun _ _ _ => ⟨"page", rfl, ⟨7779, rfl⟩, ⟨40, rfl⟩, ⟨24, rfl⟩⟩)

/-- C2 (code bug): when a page's chapter-list extraction fails, the
harvester does log `"Failed to parse Page {page}"` — but then calls
`.unwrap()` on the `Err` (`chapter_list.rs:39`), which panics and aborts
the whole harvest instead of letting the page contribute zero entries:
with a single page whose extraction fails, `parse` ends in a panic, not
a returned map. -/
theorem c2_page_failure_aborts :
    ChapterListHarvester.parse failListEnv 1 "https://w.example/list?title_no=95" =
      (.panicked "No chapter number to parse",
       [.get "https://w.example/list?title_no=95&page=1", .sleepMs 1000,
        .logError "Failed to parse Page 1"]) := by
  rfl

/-- C8: when the same chapter id is extracted from two different catalog
pages with different dates, the per-page results are flattened in page
order and inserted into one map with last-write-wins, so the resulting
map holds the later page's date. -/
theorem c8_last_write_wins (env : ChapterListHarvester.ListEnv) (url : String)
    (k a1 a2 : Nat) (d1 d2 : String) (b1 b2 : String) (r1 r2 : Response)
    (h1 : env.fetch (ChapterListHarvester.pageUrl url 1) = .ok r1)
    (ht1 : r1.text = .ok b1)
    (he1 : env.extract b1 = .ok [{ chapter := k, likes := a1, date := d1 }])
    (h2 : env.fetch (ChapterListHarvester.pageUrl url 2) = .ok r2)
    (ht2 : r2.text = .ok b2)
    (he2 : env.extract b2 = .ok [{ chapter := k, likes := a2, date := d2 }]) :
    ∃ m, (ChapterListHarvester.parse env 2 url).1 = .ok m ∧
      ChapterListHarvester.hmFind m k = some d2 := by
  refine ⟨[(k, d2)], ?_, ?_⟩
  · have hrange : List.range' 1 2 = [1, 2] := rfl
    simp only [ChapterListHarvester.parse, hrange, ChapterListHarvester.harvestPages,
      ChapterListHarvester.list, h1, ht1, he1, h2, ht2, he2]
    simp [ChapterListHarvester.hmInsert]
  · simp [ChapterListHarvester.hmFind]

/-- Witness for C8: two concrete pages sharing chapter id 24 with dates
2022-11-13 (page 1) and 2022-11-20 (page 2); the map ends up holding the
page-2 date. -/
theorem c8_witness :
    ∃ m, (ChapterListHarvester.parse twoPageListEnv 2
        "https://w.example/list?title_no=95").1 = .ok m ∧
      ChapterListHarvester.hmFind m 24 = some "2022-11-20" :=
  c8_last_write_wins twoPageListEnv "https://w.example/list?title_no=95"
    24 100 200 "2022-11-13" "2022-11-20" "page1" "page2"
    { status := 200, text := .ok "page1" } { status := 200, text := .ok "page2" }
    rfl rfl rfl rfl rfl rfl

/-- C9 counterexample: the claim says a jitter sleep occurs before each
catalog-page fetch, but `list` issues the GET first and sleeps after it
(`chapter_list.rs:54-57`): in a concrete run the trace's first event is
the GET itself, with no event — in particular no sleep — before it; the
1000 ms sleep follows the GET. -/
theorem c9_counterexample :
    (ChapterListHarvester.list okListEnv 2 "https://w.example/list?title_no=95&page=1").2 =
      [.get "https://w.example/list?title_no=95&page=1", .sleepMs 1000] ∧
    (ChapterListHarvester.list okListEnv 2 "https://w.example/list?title_no=95&page=1").2.head? =
      some (.get "https://w.example/list?title_no=95&page=1") :=
  ⟨rfl, rfl⟩

/-- C9 amended: for every catalog-page fetch that succeeds, a sleep of
`500 * r` milliseconds with `r` drawn from `{1, 2, 3}` (so a duration in
{500 ms, 1000 ms, 1500 ms}) occurs immediately after the fetch of that
page, before the page body is processed. -/
theorem c9_sleep_after_fetch_amended (env : ChapterListHarvester.ListEnv)
    (r : Nat) (url : String) (resp : Response)
    (hr1 : 1 ≤ r) (hr3 : r ≤ 3) (hf : env.fetch url = .ok resp) :
    (ChapterListHarvester.list env r url).2 = [.get url, .sleepMs (500 * r)] ∧
    (500 * r = 500 ∨ 500 * r = 1000 ∨ 500 * r = 1500) := by
  constructor
  · simp only [ChapterListHarvester.list, hf]
    cases ht : resp.text with
    | error e => rfl
    | ok html =>
      cases he : env.extract html with
      | error e => simp [he]
      | ok lst => simp [he]
  · omega

/-- Witness for C9 (amended) at a concrete page with draw `r = 2`. -/
theorem c9_witness :
    (ChapterListHarvester.list okListEnv 2 "https://w.example/list?title_no=95&page=2").2 =
      [.get "https://w.example/list?title_no=95&page=2", .sleepMs (500 * 2)] ∧
    (500 * 2 = 500 ∨ 500 * 2 = 1000 ∨ 500 * 2 = 1500) :=
  c9_sleep_after_fetch_amended okListEnv 2 "https://w.example/list?title_no=95&page=2"
    { status := 200, text := .ok "goodpage" } (by decide) (by decide) rfl

end WebtoonScraper
